import Mathlib

/-!
Verification of the VEDA esports Discord bot (`bot.py`, `keep_alive.py`)
against its natural-language specification.

The development shallowly embeds the bot's persistent data model (the five
SQLite tables created by `Database.init_db`), the `Database` write operations,
the auto-moderation `on_message` handler with its bad-word regex and warning
cooldown, the `schedule` command's `strptime` validation, the periodic
voice-connection maintenance task, the per-user stats aggregate query, the
`meme` command's reply logic, and the keep-alive HTTP route.

Modelling conventions:
  * SQLite tables are lists of row structures; `INSERT` appends at the end,
    `DELETE ... WHERE` filters rows out.  Auto-increment ids are implicit
    (row identity is list position), which suffices for every claim here.
  * Timestamps (`time.time()` and `datetime.now()`) are modelled as integers;
    the cooldown logic only compares differences against the constant 60.
  * The bad-word regex `\b(?:w1|w2|...)\b` with `re.IGNORECASE` is modelled
    over the ASCII fragment: word characters are ASCII alphanumerics and
    underscore, and case folding is ASCII `Char.toLower`.
  * Chat replies that the claims inspect are modelled as structured values
    (inductive reply types or strings), not formatted embeds.
-/

/-- Row of the `scrims` table: `(date, time, event)` as inserted by
`Database.add_scrim`. -/
structure ScrimRow where
  date : String
  time_str : String
  event : String
deriving DecidableEq

/-- Row of the `team_stats` table as inserted by `Database.log_match`. -/
structure TeamRow where
  kills : Int
  damage : Int
  placement : Int
deriving DecidableEq

/-- Row of the `user_stats` table as inserted by `Database.log_user_match`. -/
structure UserStatRow where
  user_id : Nat
  kills : Int
  damage : Int
  placement : Int
deriving DecidableEq

/-- Row of the `warnings` table as inserted by `Database.add_warning`. -/
structure WarningRow where
  user_id : Nat
  reason : String
  timestamp : Int
deriving DecidableEq

/-- Row of the `mod_logs` table as inserted by `Database.add_mod_log`. -/
structure ModLogRow where
  action : String
  timestamp : Int
deriving DecidableEq

/-- The five tables created by `Database.init_db`, as lists of rows. -/
structure DBState where
  scrims : List ScrimRow
  team_stats : List TeamRow
  user_stats : List UserStatRow
  warnings : List WarningRow
  mod_logs : List ModLogRow
deriving DecidableEq

/-- The freshly initialised database: `init_db` creates empty tables. -/
def emptyDB : DBState := ⟨[], [], [], [], []⟩

/-- The write operations the program performs against the database.  These
are exactly the mutating `Database` methods of `bot.py` (`add_scrim`,
`log_match`, `log_user_match`, `add_mod_log`, `add_warning`,
`clear_warnings`); every command handler and the `on_message` event write
through them, and all remaining queries in the file are `SELECT`s. -/
inductive DbOp where
  | addScrim (date time_str event : String)
  | logMatch (kills damage placement : Int)
  | logUserMatch (user_id : Nat) (kills damage placement : Int)
  | addModLog (action : String) (t : Int)
  | addWarning (user_id : Nat) (reason : String) (t : Int)
  | clearWarnings (user_id : Nat)
deriving DecidableEq

/-- Interpretation of a single write operation.  `INSERT` appends a row;
`clear_warnings` runs `DELETE FROM warnings WHERE user_id = ?`, keeping
exactly the rows of other users. -/
def applyOp (op : DbOp) (s : DBState) : DBState :=
  match op with
  | .addScrim d t e => { s with scrims := s.scrims ++ [⟨d, t, e⟩] }
  | .logMatch k d p => { s with team_stats := s.team_stats ++ [⟨k, d, p⟩] }
  | .logUserMatch u k d p => { s with user_stats := s.user_stats ++ [⟨u, k, d, p⟩] }
  | .addModLog a t => { s with mod_logs := s.mod_logs ++ [⟨a, t⟩] }
  | .addWarning u r t => { s with warnings := s.warnings ++ [⟨u, r, t⟩] }
  | .clearWarnings u => { s with warnings := s.warnings.filter (fun w => !(w.user_id == u)) }

/-- Run a sequence of database write operations from left to right. -/
def applyOps (l : List DbOp) (s : DBState) : DBState :=
  l.foldl (fun s op => applyOp op s) s

/-- `Database.get_warnings`: `SELECT COUNT(*) FROM warnings WHERE user_id = ?`.
The aggregate query always returns one row, whose single cell is the count. -/
def get_warnings (s : DBState) (u : Nat) : Nat :=
  (s.warnings.filter (fun w => w.user_id == u)).length

/-- `True` exactly for the operation that writes to `mod_logs`
(`Database.add_mod_log`). -/
def isModLogWrite : DbOp → Bool
  | .addModLog _ _ => true
  | _ => false

theorem applyOp_mod_logs_extend (op : DbOp) (s : DBState) :
    ∃ t, (applyOp op s).mod_logs = s.mod_logs ++ t := by
  cases op with
  | addModLog a t => exact ⟨[⟨a, t⟩], rfl⟩
  | addScrim d t e => exact ⟨[], by simp [applyOp]⟩
  | logMatch k d p => exact ⟨[], by simp [applyOp]⟩
  | logUserMatch u k d p => exact ⟨[], by simp [applyOp]⟩
  | addWarning u r t => exact ⟨[], by simp [applyOp]⟩
  | clearWarnings u => exact ⟨[], by simp [applyOp]⟩

/-- C2: the moderation log is append-only.  Running any sequence of the
program's database write operations extends `mod_logs` at the end (so every
previously inserted record is preserved, in order), and every operation other
than `add_mod_log` leaves `mod_logs` exactly unchanged: `add_mod_log` inserts
are the only writes to that table. -/
theorem mod_logs_append_only (l : List DbOp) (s : DBState) :
    (∃ t, (applyOps l s).mod_logs = s.mod_logs ++ t)
    ∧ ∀ (op : DbOp) (s' : DBState), isModLogWrite op = false →
        (applyOp op s').mod_logs = s'.mod_logs := by
  constructor
  · induction l generalizing s with
    | nil => exact ⟨[], by simp [applyOps]⟩
    | cons op l ih =>
      obtain ⟨t, ht⟩ := ih (applyOp op s)
      obtain ⟨u, hu⟩ := applyOp_mod_logs_extend op s
      refine ⟨u ++ t, ?_⟩
      have : applyOps (op :: l) s = applyOps l (applyOp op s) := rfl
      rw [this, ht, hu, List.append_assoc]
  · intro op s' hop
    cases op with
    | addModLog a t => simp [isModLogWrite] at hop
    | addScrim d t e => rfl
    | logMatch k d p => rfl
    | logUserMatch u k d p => rfl
    | addWarning u r t => rfl
    | clearWarnings u => rfl

/-- Witness for `mod_logs_append_only` at a concrete operation sequence,
discharging the `isModLogWrite op = false` hypothesis at `clearWarnings`. -/
theorem mod_logs_append_only_witness :
    (∃ t, (applyOps [DbOp.clearWarnings 1, DbOp.addModLog "a" 5] emptyDB).mod_logs
        = emptyDB.mod_logs ++ t)
    ∧ (applyOp (DbOp.clearWarnings 1) emptyDB).mod_logs = emptyDB.mod_logs :=
  ⟨(mod_logs_append_only [DbOp.clearWarnings 1, DbOp.addModLog "a" 5] emptyDB).1,
   (mod_logs_append_only [] emptyDB).2 (DbOp.clearWarnings 1) emptyDB rfl⟩

/-- C6: after `clear_warnings(u)`, `get_warnings(u)` returns `0`, and
`get_warnings(v)` is unchanged for every other user id `v`. -/
theorem clear_warnings_spec (s : DBState) (u : Nat) :
    get_warnings (applyOp (DbOp.clearWarnings u) s) u = 0
    ∧ ∀ v : Nat, v ≠ u →
        get_warnings (applyOp (DbOp.clearWarnings u) s) v = get_warnings s v := by
  constructor
  · show ((s.warnings.filter _).filter _).length = 0
    rw [List.filter_filter]
    simp
  · intro v hv
    show ((s.warnings.filter _).filter _).length = (s.warnings.filter _).length
    rw [List.filter_filter]
    congr 1
    apply List.filter_congr
    intro a _
    by_cases h : a.user_id = v
    · have hne : ¬ (a.user_id = u) := by rw [h]; exact hv
      simp [h, hne, hv]
    · simp [h]

/-- Witness for `clear_warnings_spec` on a concrete two-user warnings table,
discharging the `v ≠ u` hypothesis with `u = 1`, `v = 2`. -/
theorem clear_warnings_spec_witness :
    get_warnings (applyOp (DbOp.clearWarnings 1) ⟨[], [], [], [⟨1, "a", 0⟩, ⟨2, "b", 0⟩], []⟩) 1 = 0
    ∧ get_warnings (applyOp (DbOp.clearWarnings 1) ⟨[], [], [], [⟨1, "a", 0⟩, ⟨2, "b", 0⟩], []⟩) 2
        = get_warnings ⟨[], [], [], [⟨1, "a", 0⟩, ⟨2, "b", 0⟩], []⟩ 2 :=
  ⟨(clear_warnings_spec ⟨[], [], [], [⟨1, "a", 0⟩, ⟨2, "b", 0⟩], []⟩ 1).1,
   (clear_warnings_spec ⟨[], [], [], [⟨1, "a", 0⟩, ⟨2, "b", 0⟩], []⟩ 1).2 2 (by decide)⟩

/-- A column declaration of the `CREATE TABLE` statements in `init_db`. -/
structure ColumnDef where
  colName : String
  sqlType : String
  primaryKey : Bool
  autoincrement : Bool
deriving DecidableEq

/-- A foreign-key constraint declaration (none of the DDL in `init_db`
declares any). -/
structure ForeignKeyDef where
  column : String
  refTable : String
  refColumn : String
deriving DecidableEq

/-- A `CREATE TABLE` declaration: table name, columns, foreign keys. -/
structure TableDef where
  tblName : String
  columns : List ColumnDef
  foreignKeys : List ForeignKeyDef
deriving DecidableEq

/-- The five `CREATE TABLE IF NOT EXISTS` statements executed by
`Database.init_db`, transcribed column by column from the DDL strings. -/
def init_db_tables : List TableDef :=
  [ ⟨"scrims",
      [⟨"id", "INTEGER", true, true⟩, ⟨"date", "TEXT", false, false⟩,
       ⟨"time", "TEXT", false, false⟩, ⟨"event", "TEXT", false, false⟩], []⟩,
    ⟨"team_stats",
      [⟨"id", "INTEGER", true, true⟩, ⟨"kills", "INTEGER", false, false⟩,
       ⟨"damage", "INTEGER", false, false⟩, ⟨"placement", "INTEGER", false, false⟩], []⟩,
    ⟨"user_stats",
      [⟨"id", "INTEGER", true, true⟩, ⟨"user_id", "INTEGER", false, false⟩,
       ⟨"kills", "INTEGER", false, false⟩, ⟨"damage", "INTEGER", false, false⟩,
       ⟨"placement", "INTEGER", false, false⟩], []⟩,
    ⟨"warnings",
      [⟨"id", "INTEGER", true, true⟩, ⟨"user_id", "INTEGER", false, false⟩,
       ⟨"reason", "TEXT", false, false⟩, ⟨"timestamp", "DATETIME", false, false⟩], []⟩,
    ⟨"mod_logs",
      [⟨"id", "INTEGER", true, true⟩, ⟨"action", "TEXT", false, false⟩,
       ⟨"timestamp", "DATETIME", false, false⟩], []⟩ ]

/-- A table has an auto-incrementing `INTEGER` primary-key column named
`id` (`id INTEGER PRIMARY KEY AUTOINCREMENT`). -/
def hasAutoIncIdPK (t : TableDef) : Bool :=
  t.columns.any (fun c =>
    c.colName == "id" && c.sqlType == "INTEGER" && c.primaryKey && c.autoincrement)

/-- C10: `init_db` creates exactly the five tables `scrims`, `team_stats`,
`user_stats`, `warnings`, `mod_logs`; each has an auto-incrementing integer
primary-key column named `id`, and none declares a foreign-key constraint. -/
theorem init_db_schema_spec :
    init_db_tables.map (fun t => t.tblName)
        = ["scrims", "team_stats", "user_stats", "warnings", "mod_logs"]
    ∧ init_db_tables.all hasAutoIncIdPK = true
    ∧ init_db_tables.all (fun t => t.foreignKeys.isEmpty) = true := by
  refine ⟨rfl, rfl, rfl⟩

/-- Numeric value of an ASCII digit character. -/
def digitVal (c : Char) : Nat := c.toNat - '0'.toNat

/-- `%Y` in CPython `_strptime`: exactly four digits. -/
def year4 : List Char → Option (Nat × List Char)
  | a :: b :: c :: d :: rest =>
    if a.isDigit ∧ b.isDigit ∧ c.isDigit ∧ d.isDigit then
      some (((digitVal a * 10 + digitVal b) * 10 + digitVal c) * 10 + digitVal d, rest)
    else none
  | _ => none

/-- `%m` in `_strptime`, the regex `1[0-2]|0[1-9]|[1-9]`: every alternative
that applies at the current position, in regex order, with its remainder. -/
def monthCands (cs : List Char) : List (Nat × List Char) :=
  (match cs with
   | a :: b :: rest =>
     (if a = '1' ∧ '0' ≤ b ∧ b ≤ '2' then [(10 + digitVal b, rest)] else []) ++
     (if a = '0' ∧ '1' ≤ b ∧ b ≤ '9' then [(digitVal b, rest)] else [])
   | _ => []) ++
  (match cs with
   | a :: rest => if '1' ≤ a ∧ a ≤ '9' then [(digitVal a, rest)] else []
   | [] => [])

/-- `%d` in `_strptime`, the regex `3[01]|[12]\d|0[1-9]|[1-9]`. -/
def dayCands (cs : List Char) : List (Nat × List Char) :=
  (match cs with
   | a :: b :: rest =>
     (if a = '3' ∧ (b = '0' ∨ b = '1') then [(30 + digitVal b, rest)] else []) ++
     (if (a = '1' ∨ a = '2') ∧ b.isDigit then [(digitVal a * 10 + digitVal b, rest)] else []) ++
     (if a = '0' ∧ '1' ≤ b ∧ b ≤ '9' then [(digitVal b, rest)] else [])
   | _ => []) ++
  (match cs with
   | a :: rest => if '1' ≤ a ∧ a ≤ '9' then [(digitVal a, rest)] else []
   | [] => [])

/-- `%H` in `_strptime`, the regex `2[0-3]|[0-1]\d|\d`. -/
def hourCands (cs : List Char) : List (Nat × List Char) :=
  (match cs with
   | a :: b :: rest =>
     (if a = '2' ∧ '0' ≤ b ∧ b ≤ '3' then [(20 + digitVal b, rest)] else []) ++
     (if (a = '0' ∨ a = '1') ∧ b.isDigit then [(digitVal a * 10 + digitVal b, rest)] else [])
   | _ => []) ++
  (match cs with
   | a :: rest => if a.isDigit then [(digitVal a, rest)] else []
   | [] => [])

/-- `%M` in `_strptime`, the regex `[0-5]\d|\d`. -/
def minCands (cs : List Char) : List (Nat × List Char) :=
  (match cs with
   | a :: b :: rest =>
     if '0' ≤ a ∧ a ≤ '5' ∧ b.isDigit then [(digitVal a * 10 + digitVal b, rest)] else []
   | _ => []) ++
  (match cs with
   | a :: rest => if a.isDigit then [(digitVal a, rest)] else []
   | [] => [])

/-- Gregorian leap-year rule as used by `datetime`. -/
def isLeap (y : Nat) : Bool := (y % 4 == 0 && y % 100 != 0) || y % 400 == 0

/-- Days in a month, as validated by the `datetime` constructor. -/
def daysInMonth (y m : Nat) : Nat :=
  if m = 2 then (if isLeap y then 29 else 28)
  else if m = 4 ∨ m = 6 ∨ m = 9 ∨ m = 11 then 30 else 31

/-- `datetime.strptime(s, "%Y-%m-%d")` succeeds: the whole string matches
`%Y-%m-%d` (with regex backtracking over the `%m`/`%d` alternatives) and the
resulting `(year, month, day)` is accepted by the `datetime` constructor
(`MINYEAR = 1`, day within the month). -/
def validDate (s : String) : Bool :=
  match year4 s.toList with
  | none => false
  | some (y, rest) =>
    match rest with
    | '-' :: r2 =>
      (monthCands r2).any (fun md =>
        match md.2 with
        | '-' :: r3 =>
          (dayCands r3).any (fun dd =>
            dd.2.isEmpty && decide (1 ≤ y) && decide (dd.1 ≤ daysInMonth y md.1))
        | _ => false)
    | _ => false

/-- `datetime.strptime(s, "%H:%M")` succeeds: the whole string matches
`%H:%M` (hour and minute ranges are enforced by the component regexes). -/
def validTime (s : String) : Bool :=
  (hourCands s.toList).any (fun hc =>
    match hc.2 with
    | ':' :: r2 => (minCands r2).any (fun mc => mc.2.isEmpty)
    | _ => false)

/-- The reply the `schedule` command sends. -/
inductive ScheduleReply where
  | invalidFormat
  | scheduled (date time_str event : String)
deriving DecidableEq

/-- The `schedule` command handler: validate the date and time with
`strptime`; on failure send the invalid-format reply and insert nothing,
otherwise insert the `(date, time, event)` triple via `add_scrim` and
confirm. -/
def schedule_scrim (date time_str event : String) (s : DBState) :
    DBState × ScheduleReply :=
  if validDate date && validTime time_str then
    (applyOp (.addScrim date time_str event) s, .scheduled date time_str event)
  else (s, .invalidFormat)

/-- C3: `schedule` inserts exactly the `(date, time, event)` triple it was
given, and only when the date parses under `%Y-%m-%d` and the time under
`%H:%M`; on any invalid date or time it sends the invalid-format reply and
leaves the scrims table (indeed the whole store) unchanged. -/
theorem schedule_scrim_spec (d t e : String) (s : DBState) :
    ((validDate d && validTime t) = true →
        (schedule_scrim d t e s).1.scrims = s.scrims ++ [⟨d, t, e⟩]
        ∧ (schedule_scrim d t e s).2 = .scheduled d t e)
    ∧ ((validDate d && validTime t) = false →
        (schedule_scrim d t e s).1 = s
        ∧ (schedule_scrim d t e s).2 = .invalidFormat) := by
  constructor
  · intro h
    simp [schedule_scrim, h, applyOp]
  · intro h
    simp [schedule_scrim, h]

/-- Witness for `schedule_scrim_spec`: a valid date/time pair is stored as
given, and the impossible date `2025-02-30` is rejected with the
invalid-format reply and no insert. -/
theorem schedule_scrim_spec_witness :
    (schedule_scrim "2025-03-14" "15:30" "practice vs team X" emptyDB).1.scrims
        = [⟨"2025-03-14", "15:30", "practice vs team X"⟩]
    ∧ (schedule_scrim "2025-02-30" "15:30" "practice vs team X" emptyDB).1 = emptyDB
    ∧ (schedule_scrim "2025-02-30" "15:30" "practice vs team X" emptyDB).2
        = .invalidFormat := by
  refine ⟨?_, ?_, ?_⟩
  · have h := ((schedule_scrim_spec "2025-03-14" "15:30" "practice vs team X" emptyDB).1
      (by decide)).1
    simpa [emptyDB] using h
  · exact ((schedule_scrim_spec "2025-02-30" "15:30" "practice vs team X" emptyDB).2
      (by decide)).1
  · exact ((schedule_scrim_spec "2025-02-30" "15:30" "practice vs team X" emptyDB).2
      (by decide)).2

/-- Word character for the regex `\b` boundary (`[A-Za-z0-9_]`, the ASCII
fragment of `\w`). -/
def isWordChar (c : Char) : Bool := c.isAlphanum || c == '_'

/-- Whether the character adjacent to a gap is a word character (`none` for
the string edges, which count as non-word). -/
def wordCharOpt : Option Char → Bool
  | none => false
  | some c => isWordChar c

/-- `\b`: a word boundary lies between two adjacent positions exactly when
their word-character classes differ. -/
def isBoundary (a b : Option Char) : Bool := wordCharOpt a != wordCharOpt b

/-- Case-insensitive character comparison (`re.IGNORECASE`, ASCII fold). -/
def lowerEq (a b : Char) : Bool := a.toLower == b.toLower

/-- Match the word `w` case-insensitively at the head of `cs`; on success
return the last consumed character (initially the character before the
match) together with the remaining input. -/
def tryMatch : List Char → Option Char → List Char → Option (Option Char × List Char)
  | [], prev, cs => some (prev, cs)
  | _ :: _, _, [] => none
  | w :: ws, _, c :: cs => if lowerEq w c then tryMatch ws (some c) cs else none

/-- `\bw\b` matches at the current position, whose preceding character is
`prev` and remaining input is `cs`. -/
def matchesHere (w : List Char) (prev : Option Char) (cs : List Char) : Bool :=
  isBoundary prev cs.head? &&
  match tryMatch w prev cs with
  | none => false
  | some (lastC, rest) => isBoundary lastC rest.head?

/-- Scan every position of the input for a word of `ws` with boundaries on
both sides, i.e. `re.search` of `\b(?:w1|w2|...)\b`. -/
def searchAux (ws : List (List Char)) : Option Char → List Char → Bool
  | prev, [] => ws.any (fun w => matchesHere w prev [])
  | prev, c :: cs => ws.any (fun w => matchesHere w prev (c :: cs)) || searchAux ws (some c) cs

/-- `bad_words_pattern.search(content)` succeeds: some configured bad word
occurs in the content, case-insensitively and delimited by word
boundaries. -/
def badWordsSearch (badWords : List String) (content : String) : Bool :=
  searchAux (badWords.map String.toList) none content.toList

/-- The default `bad_words` list from the configuration. -/
def BAD_WORDS : List String := ["badword1", "badword2", "spam"]

/-- `WARNING_COOLDOWN = 60` seconds between auto-moderation warnings. -/
def WARNING_COOLDOWN : Int := 60

/-- A received chat message, with the clock value at which the handler
processes it (used for both `time.time()` and `datetime.now()`). -/
structure Msg where
  author : Nat
  authorName : String
  isBot : Bool
  content : String
  time : Int

/-- The bot's in-memory state relevant to auto-moderation: the database,
the `AUTO_MODERATION_ENABLED` flag and the `last_warning_times` dict
(`.get(user, 0)` modelled as a total function defaulting to `0`). -/
structure BotState where
  db : DBState
  autoMod : Bool
  last_warning_times : Nat → Int

/-- Initial in-memory state: fresh database, configured flag, empty
`last_warning_times` dict. -/
def initialBotState (enabled : Bool) : BotState :=
  ⟨emptyDB, enabled, fun _ => 0⟩

/-- The `on_message` event handler's auto-moderation path.  Returns the new
state and whether the message was deleted.  On a match it deletes the
message, appends the mod-log record, and—only when at least
`WARNING_COOLDOWN` seconds have passed since the author's last recorded
warning time—adds a warning row and updates `last_warning_times`. -/
def onMessage (bw : List String) (s : BotState) (m : Msg) : BotState × Bool :=
  if m.isBot then (s, false)
  else if s.autoMod && badWordsSearch bw m.content then
    let logAction := "Deleted message from " ++ m.authorName ++ ": " ++ m.content
    let s1 : BotState := { s with db := applyOp (DbOp.addModLog logAction m.time) s.db }
    if WARNING_COOLDOWN ≤ m.time - s.last_warning_times m.author then
      ({ s1 with
          db := applyOp (.addWarning m.author "Bad word usage" m.time) s1.db,
          last_warning_times :=
            fun v => if v = m.author then m.time else s.last_warning_times v }, true)
    else (s1, true)
  else (s, false)

/-- C1 counterexample: a non-bot message that matches the bad-word pattern
while auto-moderation is enabled, sent 30 seconds after the author's last
recorded warning time.  The handler deletes it (second component `true`)
and the claim's premises all hold, yet no warning record is created: the
warnings table stays empty, because the 60-second cooldown has not
elapsed.  So "deletes, logs, and creates a warning record" is false as a
description of every matching message. -/
theorem automod_warning_skipped_in_cooldown :
    badWordsSearch BAD_WORDS "spam" = true
    ∧ ((130 : Int) - 100 < WARNING_COOLDOWN)
    ∧ (onMessage BAD_WORDS ⟨emptyDB, true, fun _ => 100⟩
        ⟨1, "alice", false, "spam", 130⟩).2 = true
    ∧ (onMessage BAD_WORDS ⟨emptyDB, true, fun _ => 100⟩
        ⟨1, "alice", false, "spam", 130⟩).1.db.warnings = [] := by
  refine ⟨by decide, by decide, ?_, ?_⟩ <;> decide

/-- C1 (amended): for every non-bot message matching the configured
bad-word pattern while auto-moderation is enabled, `on_message` deletes the
message and appends the moderation-log record; it creates a warning record
for the author exactly when at least `WARNING_COOLDOWN = 60` seconds have
passed since the author's last recorded auto-moderation warning, and
otherwise leaves the warnings table unchanged. -/
theorem on_message_automod_spec (bw : List String) (s : BotState) (m : Msg)
    (hb : m.isBot = false) (he : s.autoMod = true)
    (hm : badWordsSearch bw m.content = true) :
    (onMessage bw s m).2 = true
    ∧ (onMessage bw s m).1.db.mod_logs
        = s.db.mod_logs
            ++ [⟨"Deleted message from " ++ m.authorName ++ ": " ++ m.content, m.time⟩]
    ∧ (WARNING_COOLDOWN ≤ m.time - s.last_warning_times m.author →
        (onMessage bw s m).1.db.warnings
          = s.db.warnings ++ [⟨m.author, "Bad word usage", m.time⟩])
    ∧ (m.time - s.last_warning_times m.author < WARNING_COOLDOWN →
        (onMessage bw s m).1.db.warnings = s.db.warnings) := by
  by_cases hc : WARNING_COOLDOWN ≤ m.time - s.last_warning_times m.author
  · refine ⟨?_, ?_, fun _ => ?_, fun habs => absurd hc (not_le.mpr habs)⟩ <;>
      simp [onMessage, hb, he, hm, hc, applyOp]
  · refine ⟨?_, ?_, fun habs => absurd habs hc, fun _ => ?_⟩ <;>
      simp [onMessage, hb, he, hm, hc, applyOp]

/-- Witness for `on_message_automod_spec` at a concrete message outside the
cooldown: the warning row is appended and the mod-log record written. -/
theorem on_message_automod_spec_witness :
    (onMessage BAD_WORDS (initialBotState true) ⟨1, "alice", false, "spam", 100⟩).2 = true
    ∧ (onMessage BAD_WORDS (initialBotState true)
        ⟨1, "alice", false, "spam", 100⟩).1.db.warnings
        = [⟨1, "Bad word usage", 100⟩] := by
  have h := on_message_automod_spec BAD_WORDS (initialBotState true)
    ⟨1, "alice", false, "spam", 100⟩ rfl rfl (by decide)
  refine ⟨h.1, ?_⟩
  have h3 := h.2.2.1 (by decide)
  simpa [initialBotState, emptyDB] using h3

/-- A channel as resolved by `bot.get_channel`: its id, and whether it is a
`discord.VoiceChannel`. -/
structure ChannelInfo where
  chanId : Nat
  isVoice : Bool
deriving DecidableEq

/-- An entry of `bot.voice_clients`: a voice connection and the id of the
channel it is connected to. -/
structure VoiceClientInfo where
  channelId : Nat
deriving DecidableEq

/-- The body of the five-minute `maintain_default_voice_connection` task.
`resolved` is the result of `bot.get_channel(DEFAULT_VOICE_CHANNEL_ID)`.
Returns the voice-client list after the run and whether a connection
attempt (`default_channel.connect()`) was made; a successful attempt adds a
client on the resolved channel. -/
def maintain_default_voice_connection (defaultId : Nat) (resolved : Option ChannelInfo)
    (voiceClients : List VoiceClientInfo) : List VoiceClientInfo × Bool :=
  match resolved with
  | none => (voiceClients, false)
  | some ch =>
    if !ch.isVoice then (voiceClients, false)
    else if voiceClients.any (fun vc => vc.channelId == defaultId) then (voiceClients, false)
    else (voiceClients ++ [⟨ch.chanId⟩], true)

/-- C4: when the default channel resolves to a voice channel, the
maintenance task attempts a connection exactly when no current voice client
is connected to the default channel; when one already is, it makes no
attempt and leaves the voice-client list unchanged, so it never creates a
second connection to the default channel. -/
theorem maintain_voice_no_double_connect (defaultId : Nat) (ch : ChannelInfo)
    (vcs : List VoiceClientInfo) (hv : ch.isVoice = true) :
    ((maintain_default_voice_connection defaultId (some ch) vcs).2 = true
        ↔ vcs.any (fun vc => vc.channelId == defaultId) = false)
    ∧ (vcs.any (fun vc => vc.channelId == defaultId) = true →
        maintain_default_voice_connection defaultId (some ch) vcs = (vcs, false))
    ∧ (vcs.any (fun vc => vc.channelId == defaultId) = false →
        maintain_default_voice_connection defaultId (some ch) vcs
          = (vcs ++ [⟨ch.chanId⟩], true)) := by
  by_cases hc : vcs.any (fun vc => vc.channelId == defaultId) = true
  · refine ⟨?_, fun _ => ?_, fun habs => ?_⟩
    · simp [maintain_default_voice_connection, hv, hc]
    · simp [maintain_default_voice_connection, hv, hc]
    · rw [hc] at habs; exact absurd habs (by decide)
  · have hc' : vcs.any (fun vc => vc.channelId == defaultId) = false :=
      Bool.eq_false_iff.mpr hc
    refine ⟨?_, fun habs => ?_, fun _ => ?_⟩
    · simp [maintain_default_voice_connection, hv, hc']
    · rw [hc'] at habs; exact absurd habs (by decide)
    · simp [maintain_default_voice_connection, hv, hc']

/-- Witness for `maintain_voice_no_double_connect` on a concrete state: a
client already on channel 7 suppresses the attempt; with no such client the
task attempts exactly one connection. -/
theorem maintain_voice_no_double_connect_witness :
    maintain_default_voice_connection 7 (some ⟨7, true⟩) [⟨7⟩] = ([⟨7⟩], false)
    ∧ maintain_default_voice_connection 7 (some ⟨7, true⟩) [⟨9⟩] = ([⟨9⟩, ⟨7⟩], true) :=
  ⟨(maintain_voice_no_double_connect 7 ⟨7, true⟩ [⟨7⟩] rfl).2.1 (by decide),
   (maintain_voice_no_double_connect 7 ⟨7, true⟩ [⟨9⟩] rfl).2.2 (by decide)⟩

/-- Timestamps of the warning rows recorded for user `u`, in insertion
order. -/
def warnTimes (s : BotState) (u : Nat) : List Int :=
  (s.db.warnings.filter (fun w => w.user_id == u)).map (fun w => w.timestamp)

/-- Run the `on_message` handler over a sequence of received messages. -/
def runMessages (bw : List String) : BotState → List Msg → BotState
  | s, [] => s
  | s, m :: ms => runMessages bw (onMessage bw s m).1 ms

/-- Invariant tying the warnings table to the `last_warning_times` dict:
every recorded warning time for `u` is at most the dict entry for `u`, and
consecutive recorded warning times for `u` are at least the cooldown
apart. -/
def cooldownInv (s : BotState) (u : Nat) : Prop :=
  (∀ t ∈ warnTimes s u, t ≤ s.last_warning_times u)
  ∧ (warnTimes s u).Pairwise (fun a b => a + WARNING_COOLDOWN ≤ b)

theorem filterTimes_append (l : List WarningRow) (r : WarningRow) (u : Nat) :
    (((l ++ [r]).filter (fun w => w.user_id == u)).map (fun w => w.timestamp))
      = ((l.filter (fun w => w.user_id == u)).map (fun w => w.timestamp))
        ++ (if r.user_id = u then [r.timestamp] else []) := by
  by_cases h : r.user_id = u <;> simp [List.filter_append, h]

theorem onMessage_warn_case (bw : List String) (s : BotState) (m : Msg)
    (hb : m.isBot = false) (hm : (s.autoMod && badWordsSearch bw m.content) = true)
    (hc : WARNING_COOLDOWN ≤ m.time - s.last_warning_times m.author) :
    (onMessage bw s m).1.db.warnings
        = s.db.warnings ++ [⟨m.author, "Bad word usage", m.time⟩]
    ∧ (onMessage bw s m).1.last_warning_times
        = fun v => if v = m.author then m.time else s.last_warning_times v := by
  constructor <;> simp [onMessage, hb, hm, hc, applyOp]

theorem onMessage_cool_case (bw : List String) (s : BotState) (m : Msg)
    (hb : m.isBot = false) (hm : (s.autoMod && badWordsSearch bw m.content) = true)
    (hc : ¬ WARNING_COOLDOWN ≤ m.time - s.last_warning_times m.author) :
    (onMessage bw s m).1.db.warnings = s.db.warnings
    ∧ (onMessage bw s m).1.last_warning_times = s.last_warning_times := by
  constructor <;> simp [onMessage, hb, hm, hc, applyOp]

theorem cooldownInv_step (bw : List String) (s : BotState) (m : Msg) (u : Nat)
    (h : cooldownInv s u) : cooldownInv (onMessage bw s m).1 u := by
  by_cases hb : m.isBot = true
  · have he : (onMessage bw s m).1 = s := by simp [onMessage, hb]
    rwa [cooldownInv, he]
  · have hb' : m.isBot = false := Bool.eq_false_iff.mpr hb
    by_cases hm : (s.autoMod && badWordsSearch bw m.content) = true
    · by_cases hc : WARNING_COOLDOWN ≤ m.time - s.last_warning_times m.author
      · obtain ⟨hw, hl⟩ := onMessage_warn_case bw s m hb' hm hc
        obtain ⟨hbound, hpw⟩ := h
        have hwt : warnTimes (onMessage bw s m).1 u
            = warnTimes s u ++ (if m.author = u then [m.time] else []) := by
          rw [warnTimes, hw, filterTimes_append]; rfl
        have hc' : (60 : Int) ≤ m.time - s.last_warning_times m.author := hc
        by_cases hu : m.author = u
        · subst hu
          have hlu : (onMessage bw s m).1.last_warning_times m.author = m.time := by
            rw [hl]
            show (if m.author = m.author then m.time else s.last_warning_times m.author)
              = m.time
            exact if_pos rfl
          constructor
          · intro t ht
            rw [hwt, if_pos rfl, List.mem_append, List.mem_singleton] at ht
            rw [hlu]
            rcases ht with ht | ht
            · have h1 := hbound t ht
              omega
            · omega
          · rw [hwt, if_pos rfl]
            refine List.pairwise_append.mpr ⟨hpw, List.pairwise_singleton _ _, ?_⟩
            intro a ha b hbm
            rw [List.mem_singleton] at hbm
            subst hbm
            have h1 := hbound a ha
            simp only [WARNING_COOLDOWN]
            omega
        · have hlu : (onMessage bw s m).1.last_warning_times u = s.last_warning_times u := by
            rw [hl]
            show (if u = m.author then m.time else s.last_warning_times u)
              = s.last_warning_times u
            exact if_neg (fun hh => hu hh.symm)
          constructor
          · intro t ht
            rw [hwt, if_neg hu, List.append_nil] at ht
            rw [hlu]
            exact hbound t ht
          · rw [hwt, if_neg hu, List.append_nil]
            exact hpw
      · obtain ⟨hw, hl⟩ := onMessage_cool_case bw s m hb' hm hc
        have hwt : warnTimes (onMessage bw s m).1 u = warnTimes s u := by
          rw [warnTimes, hw]; rfl
        exact ⟨by rw [hwt, hl]; exact h.1, by rw [hwt]; exact h.2⟩
    · have hm' : (s.autoMod && badWordsSearch bw m.content) = false :=
        Bool.eq_false_iff.mpr hm
      have he : (onMessage bw s m).1 = s := by simp [onMessage, hb', hm']
      rwa [cooldownInv, he]

theorem cooldownInv_run (bw : List String) (ms : List Msg) (s : BotState) (u : Nat)
    (h : cooldownInv s u) : cooldownInv (runMessages bw s ms) u := by
  induction ms generalizing s with
  | nil => exact h
  | cons m ms ih => exact ih _ (cooldownInv_step bw s m u h)

/-- C5: starting from a fresh state, after any sequence of received
messages the auto-moderation warning records of each user `u` are pairwise
at least `WARNING_COOLDOWN = 60` seconds apart (each later warning time is
at least 60 above every earlier one); and every matching non-bot message is
still deleted whether or not a warning is recorded. -/
theorem auto_warning_cooldown (bw : List String) (enabled : Bool) (ms : List Msg) (u : Nat) :
    (warnTimes (runMessages bw (initialBotState enabled) ms) u).Pairwise
        (fun a b => a + WARNING_COOLDOWN ≤ b)
    ∧ ∀ (s : BotState) (m : Msg), m.isBot = false → s.autoMod = true →
        badWordsSearch bw m.content = true → (onMessage bw s m).2 = true := by
  constructor
  · have hinit : cooldownInv (initialBotState enabled) u := by
      constructor
      · intro t ht
        have hnil : warnTimes (initialBotState enabled) u = [] := rfl
        rw [hnil] at ht
        exact absurd ht (List.not_mem_nil t)
      · have hnil : warnTimes (initialBotState enabled) u = [] := rfl
        rw [hnil]
        exact List.Pairwise.nil
    exact (cooldownInv_run bw ms (initialBotState enabled) u hinit).2
  · intro s m hb he hm
    by_cases hc : WARNING_COOLDOWN ≤ m.time - s.last_warning_times m.author
    · simp [onMessage, hb, he, hm, hc]
    · simp [onMessage, hb, he, hm, hc]

/-- Witness for `auto_warning_cooldown`: a trace of three matching messages
from user 1 at times 100, 130, 161 (the middle one inside the cooldown),
and a concrete matching message that is deleted. -/
theorem auto_warning_cooldown_witness :
    (warnTimes (runMessages BAD_WORDS (initialBotState true)
        [⟨1, "alice", false, "spam", 100⟩, ⟨1, "alice", false, "spam", 130⟩,
         ⟨1, "alice", false, "spam", 161⟩]) 1).Pairwise
        (fun a b => a + WARNING_COOLDOWN ≤ b)
    ∧ (onMessage BAD_WORDS (initialBotState true)
        ⟨1, "alice", false, "spam", 100⟩).2 = true :=
  ⟨(auto_warning_cooldown BAD_WORDS true
      [⟨1, "alice", false, "spam", 100⟩, ⟨1, "alice", false, "spam", 130⟩,
       ⟨1, "alice", false, "spam", 161⟩] 1).1,
   (auto_warning_cooldown BAD_WORDS true [] 1).2 (initialBotState true)
     ⟨1, "alice", false, "spam", 100⟩ rfl rfl (by decide)⟩

/-- A SQLite cell value as returned to Python: `NULL` (`None`), an integer,
or a real. -/
inductive SqlVal where
  | null
  | int (i : Int)
  | real (q : Rat)
deriving DecidableEq

/-- `SUM` over an integer column: `NULL` on the empty selection. -/
def sqlSumInt (l : List Int) : SqlVal :=
  if l.isEmpty then .null else .int l.sum

/-- `AVG` over an integer column: `NULL` on the empty selection, otherwise
the real-valued mean. -/
def sqlAvgInt (l : List Int) : SqlVal :=
  if l.isEmpty then .null else .real ((l.sum : Rat) / (l.length : Rat))

/-- The aggregate query of `Database.get_user_stats`:
`SELECT SUM(kills), SUM(damage), AVG(placement), COUNT(*) FROM user_stats
WHERE user_id = ?`.  An aggregate query without `GROUP BY` yields exactly
one row. -/
def user_stats_query (s : DBState) (u : Nat) :
    List (SqlVal × SqlVal × SqlVal × SqlVal) :=
  let sel := s.user_stats.filter (fun r => r.user_id == u)
  [ (sqlSumInt (sel.map (fun r => r.kills)),
     sqlSumInt (sel.map (fun r => r.damage)),
     sqlAvgInt (sel.map (fun r => r.placement)),
     .int sel.length) ]

/-- `Database.get_user_stats`: `result[0] if result else (0, 0, 0, 0)`. -/
def get_user_stats (s : DBState) (u : Nat) : SqlVal × SqlVal × SqlVal × SqlVal :=
  match user_stats_query s u with
  | [] => (.int 0, .int 0, .int 0, .int 0)
  | r :: _ => r

/-- The reply of the `mystats` / `playerstats` commands: either the
"no matches logged" message or the stats display. -/
inductive StatsReply where
  | noMatches
  | stats (kills damage avg cnt : SqlVal)
deriving DecidableEq

/-- The `mystats` command: unpack `get_user_stats(ctx.author.id)` and reply
"no matches" when the match count is 0. -/
def my_stats_command (s : DBState) (u : Nat) : StatsReply :=
  match get_user_stats s u with
  | (k, d, a, m) => if m = .int 0 then .noMatches else .stats k d a m

/-- The `playerstats` command: identical logic on the mentioned member's
id. -/
def player_stats_command (s : DBState) (memberId : Nat) : StatsReply :=
  match get_user_stats s memberId with
  | (k, d, a, m) => if m = .int 0 then .noMatches else .stats k d a m

/-- C7: the aggregate query always yields exactly one row (so the
`(0, 0, 0, 0)` fallback is unreachable), and for a user with no
`user_stats` rows the returned match count is `0` and both stats commands
reply with the no-matches message instead of displaying the `NULL` sums. -/
theorem get_user_stats_no_rows (s : DBState) (u : Nat) :
    (user_stats_query s u).length = 1
    ∧ (s.user_stats.filter (fun r => r.user_id == u) = [] →
        (get_user_stats s u).2.2.2 = .int 0
        ∧ my_stats_command s u = .noMatches
        ∧ player_stats_command s u = .noMatches) := by
  refine ⟨rfl, fun h => ?_⟩
  have hq : get_user_stats s u = (.null, .null, .null, .int 0) := by
    simp [get_user_stats, user_stats_query, h, sqlSumInt, sqlAvgInt]
  refine ⟨?_, ?_, ?_⟩
  · rw [hq]
  · simp [my_stats_command, hq]
  · simp [player_stats_command, hq]

/-- Witness for `get_user_stats_no_rows`: a table holding a match for user
2 only, queried for user 1. -/
theorem get_user_stats_no_rows_witness :
    (user_stats_query ⟨[], [], [⟨2, 5, 800, 3⟩], [], []⟩ 1).length = 1
    ∧ my_stats_command ⟨[], [], [⟨2, 5, 800, 3⟩], [], []⟩ 1 = .noMatches :=
  ⟨(get_user_stats_no_rows ⟨[], [], [⟨2, 5, 800, 3⟩], [], []⟩ 1).1,
   ((get_user_stats_no_rows ⟨[], [], [⟨2, 5, 800, 3⟩], [], []⟩ 1).2 (by decide)).2.1⟩

/-- Outcome of the `requests.get` / `raise_for_status` / `.json()` sequence
in the `meme` command: either a parsed JSON object (string fields keyed by
name) or a raised exception (network failure, bad HTTP status, or JSON
decode error). -/
inductive FetchResult where
  | ok (fields : List (String × String))
  | err
deriving DecidableEq

/-- The `meme` command handler: on success send `data.get("url",
"No meme found")`, and on any exception send the fixed error message. -/
def meme_command : FetchResult → List String
  | .ok fields => [(fields.lookup "url").getD "No meme found"]
  | .err => ["❌ Couldn\x27t fetch a meme right now."]

/-- C8: every invocation of the `meme` command sends exactly one reply: the
JSON `url` field (defaulting to "No meme found" when absent) on success,
and the fixed error message when the request or response handling raises;
no exception escapes the handler. -/
theorem meme_command_single_reply (r : FetchResult) :
    (meme_command r).length = 1
    ∧ (∀ fields, r = .ok fields →
        meme_command r = [(fields.lookup "url").getD "No meme found"])
    ∧ (r = .err → meme_command r = ["❌ Couldn\x27t fetch a meme right now."]) := by
  refine ⟨?_, ?_, ?_⟩
  · cases r <;> rfl
  · intro fields hf
    subst hf
    rfl
  · intro hf
    subst hf
    rfl

/-- Witness for `meme_command_single_reply`: a response carrying a `url`
field, one without it, and the exception case. -/
theorem meme_command_single_reply_witness :
    meme_command (.ok [("url", "https://example.com/meme.png")])
        = ["https://example.com/meme.png"]
    ∧ meme_command (.ok [("title", "x")]) = ["No meme found"]
    ∧ meme_command .err = ["❌ Couldn\x27t fetch a meme right now."] :=
  ⟨(meme_command_single_reply (.ok [("url", "https://example.com/meme.png")])).2.1
      [("url", "https://example.com/meme.png")] rfl,
   (meme_command_single_reply (.ok [("title", "x")])).2.1 [("title", "x")] rfl,
   (meme_command_single_reply .err).2.2 rfl⟩

/-- An HTTP request to the keep-alive Flask server. -/
structure HttpRequest where
  path : String
  method : String
  body : String

/-- The `home` route handler of `keep_alive.py`: it takes no inputs and
returns the fixed liveness string. -/
def home : String := "Bot is running!"

/-- The keep-alive Flask app: the only registered route is `/`, served by
`home`.  The handler reads nothing from the request and no bot state
exists in the module, so the response is a function of the path alone. -/
def keep_alive_app (req : HttpRequest) : Option String :=
  if req.path = "/" then some home else none

/-- C9: every request to the keep-alive server's root route yields the same
static string "Bot is running!", whatever the rest of the request; any two
root requests get identical responses. -/
theorem keep_alive_root_static (r₁ r₂ : HttpRequest)
    (h₁ : r₁.path = "/") (h₂ : r₂.path = "/") :
    keep_alive_app r₁ = some "Bot is running!"
    ∧ keep_alive_app r₁ = keep_alive_app r₂ := by
  constructor
  · simp [keep_alive_app, h₁, home]
  · simp [keep_alive_app, h₁, h₂]

/-- Witness for `keep_alive_root_static` on two distinct concrete
requests. -/
theorem keep_alive_root_static_witness :
    keep_alive_app ⟨"/", "GET", ""⟩ = some "Bot is running!"
    ∧ keep_alive_app ⟨"/", "GET", ""⟩ = keep_alive_app ⟨"/", "HEAD", "ping"⟩ :=
  keep_alive_root_static ⟨"/", "GET", ""⟩ ⟨"/", "HEAD", "ping"⟩ rfl rfl
